import Mathlib

/-!
Verification of the DeepCatch phishing-detection service (src/main.py).

The development shallowly embeds the pure core of the program:
the URL extractor `extract_urls`, the input-type classifier
`detect_input_type`, the response parser inside `analyze_with_deepseek`
(lines 146-210 of the source), and the request handler `check_phishing`.
Python regular-expression searches are embedded as executable scanners
with the exact semantics of `re.search` / `re.findall` on the concrete
patterns appearing in the source: leftmost match, greedy `\s*` with
backtracking, lazy `(.+?)` growth checked against its lookahead after
every character, `$` matching at the end of the input or just before a
final newline, and `re.IGNORECASE` applying to literals and to the
character class `[A-Z]` alike.  The remote DeepSeek call and the
wall-clock timer are external effects; they enter the embedding as
explicit parameters (an `Except` value for the reply, a rational for
the elapsed time).  All characters relevant to the claims are ASCII, so
ASCII case folding models `str.lower` and `re.IGNORECASE`.
-/

/-- Python `\s` (ASCII range): the whitespace set stripped by `str.strip()`
and consumed by `\s*` in the patterns of src/main.py. -/
def isSpaceChar (c : Char) : Bool :=
  c == ' ' || c == '\t' || c == '\n' || c == '\r' || c == '\x0b' || c == '\x0c'

/-- Python `\w` (ASCII range), as used by `(\w+(?:-\w+)?)` in the VERDICT
pattern of src/main.py line 161. -/
def isWordChar (c : Char) : Bool :=
  c.isAlpha || c.isDigit || c == '_'

/-- Case-insensitive prefix test (ASCII folding), modelling a literal
regex fragment under `re.IGNORECASE`. -/
def startsWithCI : List Char → List Char → Bool
  | [], _ => true
  | _ :: _, [] => false
  | p :: ps, c :: cs => (p.toLower == c.toLower) && startsWithCI ps cs

/-- Python `str.strip()` on a character list (ASCII whitespace). -/
def pyStripL (l : List Char) : List Char :=
  ((l.dropWhile isSpaceChar).reverse.dropWhile isSpaceChar).reverse

/-- Python `str.strip()`. -/
def pyStrip (s : String) : String :=
  String.mk (pyStripL s.data)

/-- Python `str.lower()` (ASCII folding). -/
def pyLower (s : String) : String :=
  String.mk (s.data.map Char.toLower)

/-- Python `str.split(",")`: split at every comma, keeping empty pieces. -/
def splitCommaAux : List Char → List Char → List (List Char)
  | acc, [] => [acc.reverse]
  | acc, ',' :: rest => acc.reverse :: splitCommaAux [] rest
  | acc, c :: rest => splitCommaAux (c :: acc) rest

/-- `[x.strip() for x in value.split(",") if x.strip()]` from src/main.py
lines 200 and 207. -/
def splitCommaClean (s : String) : List String :=
  (((splitCommaAux [] s.data).map pyStripL).filter (fun l => !l.isEmpty)).map String.mk

/-- Value of a decimal digit run, as produced by Python `int` on a `(\d+)`
capture. -/
def natOfDigits (l : List Char) : Nat :=
  l.foldl (fun acc c => 10 * acc + (c.toNat - 48)) 0

/-- Lazy capture `(.+?)(?=LA|$)`: consume at least one character (for a
pattern without `re.DOTALL` the character may not be a newline), and stop
as soon as the lookahead `la` holds at the remaining text, or the
remaining text is the end of the input, or the remaining text is exactly
a final newline (Python `$`).  Returns `none` when no length of capture
succeeds from this start position. -/
def captureLazy (dotall : Bool) (la : List Char → Bool) : List Char → Option (List Char)
  | [] => none
  | c :: r =>
    if !dotall && c == '\n' then none
    else if la r || r.isEmpty || r == ['\n'] then some [c]
    else
      match captureLazy dotall la r with
      | some cap => some (c :: cap)
      | none => none

/-- Backtracking over the greedy `\s*` that precedes `(.+?)`: try the
whole whitespace run first (`k` = its length), then give characters back
one at a time. -/
def tryCapture (dotall : Bool) (la : List Char → Bool) (t : List Char) : Nat → Option (List Char)
  | 0 => captureLazy dotall la t
  | k + 1 =>
    match captureLazy dotall la (t.drop (k + 1)) with
    | some cap => some cap
    | none => tryCapture dotall la t k

/-- `re.search` for a pattern of shape `HDR:\s*(.+?)(?=LA|$)` with
`re.IGNORECASE` (and `re.DOTALL` when `dotall` is true): scan start
positions left to right; at the first position where the header and some
capture succeed, return the capture group. -/
def searchCap (hdr : List Char) (dotall : Bool) (la : List Char → Bool) : List Char → Option (List Char)
  | [] => none
  | c :: rest =>
    if startsWithCI hdr (c :: rest) then
      let t := (c :: rest).drop hdr.length
      match tryCapture dotall la t (t.takeWhile isSpaceChar).length with
      | some cap => some cap
      | none => searchCap hdr dotall la rest
    else searchCap hdr dotall la rest

/-- `re.search` for a pattern of shape `HDR:\s*(TOKEN)` where the token
class (`\w`, `\d`) is disjoint from `\s`, so the greedy `\s*` never
backtracks: scan positions left to right, and at each header occurrence
try to read the token after the whitespace run. -/
def searchToken {α : Type} (hdr : List Char) (tok : List Char → Option α) : List Char → Option α
  | [] => none
  | c :: rest =>
    if startsWithCI hdr (c :: rest) then
      match tok (((c :: rest).drop hdr.length).dropWhile isSpaceChar) with
      | some v => some v
      | none => searchToken hdr tok rest
    else searchToken hdr tok rest

/-- Capture of `(\w+(?:-\w+)?)` from src/main.py line 161: a maximal word,
optionally extended by a hyphen and a second maximal word. -/
def verdictToken (t : List Char) : Option (List Char) :=
  if (t.takeWhile isWordChar).isEmpty then none
  else
    match t.drop (t.takeWhile isWordChar).length with
    | c :: u =>
      if c = '-' then
        if (u.takeWhile isWordChar).isEmpty then some (t.takeWhile isWordChar)
        else some (t.takeWhile isWordChar ++ '-' :: u.takeWhile isWordChar)
      else some (t.takeWhile isWordChar)
    | [] => some (t.takeWhile isWordChar)

/-- Capture of `(\d+)` converted by Python `int`. -/
def digitsToken (t : List Char) : Option Nat :=
  let d := t.takeWhile Char.isDigit
  if d.isEmpty then none else some (natOfDigits d)

/-- `re.search(r"METADATA:\s*(.+)", ..., re.IGNORECASE | re.DOTALL)` from
src/main.py line 181: greedy `(.+)` takes everything after the whitespace
run to the end of the reply; when only whitespace follows the header,
`\s*` gives one character back so `(.+)` can match it. -/
def searchGreedyTail (hdr : List Char) : List Char → Option (List Char)
  | [] => none
  | c :: rest =>
    if startsWithCI hdr (c :: rest) then
      let t := (c :: rest).drop hdr.length
      let w := (t.takeWhile isSpaceChar).length
      if (t.drop w).isEmpty then
        if t.isEmpty then searchGreedyTail hdr rest else some (t.drop (w - 1))
      else some (t.drop w)
    else searchGreedyTail hdr rest

/-- Lookahead `(?=HIGHLIGHTED_CONTENT:|METADATA:)` (src/main.py line 171). -/
def laExplanation (r : List Char) : Bool :=
  startsWithCI "HIGHLIGHTED_CONTENT:".data r || startsWithCI "METADATA:".data r

/-- Lookahead `(?=METADATA:)` (src/main.py line 176). -/
def laMetadataHdr (r : List Char) : Bool :=
  startsWithCI "METADATA:".data r

/-- Lookahead `(?=\n)` (src/main.py lines 186 and 203). -/
def laNewline (r : List Char) : Bool :=
  match r with
  | '\n' :: _ => true
  | _ => false

/-- Lookahead `(?=\n[A-Z])` under `re.IGNORECASE` (src/main.py line 196):
the class `[A-Z]` is case-folded, so any ASCII letter after the newline
stops the capture. -/
def laNewlineLetter (r : List Char) : Bool :=
  match r with
  | '\n' :: c :: _ => ('A' ≤ c && c ≤ 'Z') || ('a' ≤ c && c ≤ 'z')
  | _ => false

/-- `verdict_match` (src/main.py line 161):
`re.search(r"VERDICT:\s*(\w+(?:-\w+)?)", analysis_text, re.IGNORECASE)`. -/
def verdict_match (s : String) : Option String :=
  (searchToken "VERDICT:".data verdictToken s.data).map String.mk

/-- `confidence_match` (src/main.py line 166):
`re.search(r"CONFIDENCE:\s*(\d+)%?", analysis_text, re.IGNORECASE)`,
captured digits converted by `int`. -/
def confidence_match (s : String) : Option Nat :=
  searchToken "CONFIDENCE:".data digitsToken s.data

/-- `explanation_match` (src/main.py line 171):
`re.search(r"EXPLANATION:\s*(.+?)(?=HIGHLIGHTED_CONTENT:|METADATA:|$)",
analysis_text, re.IGNORECASE | re.DOTALL)`. -/
def explanation_match (s : String) : Option String :=
  (searchCap "EXPLANATION:".data true laExplanation s.data).map String.mk

/-- `highlighted_match` (src/main.py line 176):
`re.search(r"HIGHLIGHTED_CONTENT:\s*(.+?)(?=METADATA:|$)", analysis_text,
re.IGNORECASE | re.DOTALL)`. -/
def highlighted_match (s : String) : Option String :=
  (searchCap "HIGHLIGHTED_CONTENT:".data true laMetadataHdr s.data).map String.mk

/-- `metadata_match` (src/main.py line 181): the region scanned for the
four metadata sub-fields. -/
def metadata_match (s : String) : Option String :=
  (searchGreedyTail "METADATA:".data s.data).map String.mk

/-- `input_type_match` (src/main.py line 186):
`re.search(r"Input Type:\s*(.+?)(?=\n|$)", metadata_text, re.IGNORECASE)`
(no `re.DOTALL`). -/
def input_type_match (s : String) : Option String :=
  (searchCap "Input Type:".data false laNewline s.data).map String.mk

/-- `susp_elem_match` (src/main.py line 191):
`re.search(r"Suspicious Elements:\s*(\d+)", metadata_text, re.IGNORECASE)`. -/
def susp_elem_match (s : String) : Option Nat :=
  searchToken "Suspicious Elements:".data digitsToken s.data

/-- `urls_match` (src/main.py line 196):
`re.search(r"URLs Found:\s*(.+?)(?=\n[A-Z]|$)", metadata_text,
re.IGNORECASE | re.DOTALL)`. -/
def urls_match (s : String) : Option String :=
  (searchCap "URLs Found:".data true laNewlineLetter s.data).map String.mk

/-- `senders_match` (src/main.py line 203):
`re.search(r"Senders/Domains:\s*(.+?)(?=\n|$)", metadata_text,
re.IGNORECASE | re.DOTALL)`. -/
def senders_match (s : String) : Option String :=
  (searchCap "Senders/Domains:".data true laNewline s.data).map String.mk

/-- Body character of the URL pattern in src/main.py line 57:
`(?:[a-zA-Z]|[0-9]|[$-_@.&+]|[!*\\(\\),]|(?:%[0-9a-fA-F][0-9a-fA-F]))`.
Inside the class `[$-_@.&+]` the fragment between the dollar sign and the
underscore is a range (0x24 to 0x5F); the remaining literals of that
class and the alternation branch for percent-encoded octets are subsumed
by the range together with the alphanumerics, so a single-character test
is exact for the greedy `+` repetition. -/
def isUrlBodyChar (c : Char) : Bool :=
  c.isAlpha || c.isDigit
    || ('$' ≤ c && c ≤ '_') || c == '@' || c == '.' || c == '&' || c == '+'
    || c == '!' || c == '*' || c == '\\' || c == '(' || c == ')' || c == ','

/-- `re.findall` scan for the URL pattern of `extract_urls`: positions are
tried left to right (case-sensitively on the scheme, since the call has
no flags); after a match the scan resumes at its end.  The fuel argument
(initially the length of the text) only serves termination: every step
consumes at least one character. -/
def scanUrlsAux : Nat → List Char → List (List Char)
  | 0, _ => []
  | _ + 1, [] => []
  | fuel + 1, c :: rest =>
    let s := c :: rest
    if "https://".data.isPrefixOf s then
      let body := (s.drop 8).takeWhile isUrlBodyChar
      if body.isEmpty then scanUrlsAux fuel rest
      else ("https://".data ++ body) :: scanUrlsAux fuel (s.drop (8 + body.length))
    else if "http://".data.isPrefixOf s then
      let body := (s.drop 7).takeWhile isUrlBodyChar
      if body.isEmpty then scanUrlsAux fuel rest
      else ("http://".data ++ body) :: scanUrlsAux fuel (s.drop (7 + body.length))
    else scanUrlsAux fuel rest

/-- `extract_urls` (src/main.py lines 55-58). -/
def extract_urls (text : String) : List String :=
  (scanUrlsAux text.data.length text.data).map String.mk

/-- `re.search(r"http[s]?://", text)` (src/main.py line 65): the call has
no flags, so the match is case-sensitive. -/
def httpSchemeSearch : List Char → Bool
  | [] => false
  | c :: rest =>
    "http://".data.isPrefixOf (c :: rest) || "https://".data.isPrefixOf (c :: rest)
      || httpSchemeSearch rest

/-- Python `in` on strings: substring containment. -/
def containsSub (pat : List Char) : List Char → Bool
  | [] => pat.isEmpty
  | c :: rest => pat.isPrefixOf (c :: rest) || containsSub pat rest

/-- Email keyword list of src/main.py line 69. -/
def emailKeywords : List String :=
  ["subject:", "from:", "to:", "dear", "regards", "sincerely"]

/-- SMS keyword list of src/main.py line 73. -/
def smsKeywords : List String :=
  ["click", "reply", "text", "msg"]

/-- `detect_input_type` (src/main.py lines 60-77). -/
def detect_input_type (text : String) : String :=
  let text_lower := text.data.map Char.toLower
  if httpSchemeSearch text.data then "URL/Link"
  else if emailKeywords.any (fun k => containsSub k.data text_lower) then "Email"
  else if text.data.length < 200 && smsKeywords.any (fun k => containsSub k.data text_lower) then
    "SMS/Text Message"
  else "Text/Message"

/-- The metadata sub-record of the result dictionary built by
`analyze_with_deepseek` (src/main.py lines 151-157). -/
structure Metadata where
  input_type : String
  suspicious_elements : Nat
  urls_found : List String
  senders_domains : List String
  analysis_time : ℚ
deriving DecidableEq

/-- The result dictionary of `analyze_with_deepseek`
(src/main.py lines 146-158). -/
structure AnalysisResult where
  verdict : String
  confidence : Nat
  explanation : String
  highlighted_content : String
  metadata : Metadata
deriving DecidableEq

/-- The seeded defaults of src/main.py lines 146-158, computed from the
original input text before the reply is inspected. -/
def seeded_metadata (text : String) (analysis_time : ℚ) : Metadata :=
  { input_type := detect_input_type text
    suspicious_elements := 0
    urls_found := extract_urls text
    senders_domains := []
    analysis_time := analysis_time }

/-- The four independent sub-field extractions applied to the metadata
region (src/main.py lines 183-207).  Each field is overwritten exactly
when its own search succeeds (and, for the two list fields, when the
stripped value is not a case-insensitive "none"); otherwise the seeded
value is kept.  The sequential mutations of the source touch pairwise
distinct fields, so the record update is written field by field. -/
def apply_metadata (metadata_text : String) (md : Metadata) : Metadata :=
  { input_type :=
      match input_type_match metadata_text with
      | some v => pyStrip v
      | none => md.input_type
    suspicious_elements := (susp_elem_match metadata_text).getD md.suspicious_elements
    urls_found :=
      match urls_match metadata_text with
      | some cap =>
        if pyLower (pyStrip cap) ≠ "none" then splitCommaClean (pyStrip cap) else md.urls_found
      | none => md.urls_found
    senders_domains :=
      match senders_match metadata_text with
      | some cap =>
        if pyLower (pyStrip cap) ≠ "none" then splitCommaClean (pyStrip cap) else md.senders_domains
      | none => md.senders_domains
    analysis_time := md.analysis_time }

/-- The response parser of `analyze_with_deepseek`
(src/main.py lines 146-208): seed the defaults from the original text,
then overwrite each field for which the corresponding search succeeds. -/
def parse_analysis_response (analysis_text : String) (text : String) (analysis_time : ℚ) :
    AnalysisResult :=
  { verdict := (verdict_match analysis_text).getD "Safe"
    confidence := (confidence_match analysis_text).getD 50
    explanation :=
      match explanation_match analysis_text with
      | some e => pyStrip e
      | none => "Analysis completed"
    highlighted_content :=
      match highlighted_match analysis_text with
      | some h => pyStrip h
      | none => text
    metadata :=
      match metadata_match analysis_text with
      | some mt => apply_metadata mt (seeded_metadata text analysis_time)
      | none => seeded_metadata text analysis_time }

/-- `analyze_with_deepseek` (src/main.py lines 79-214) at its effect
boundary: the availability of the module-level client and the outcome of
the remote chat-completion call are parameters.  A missing client raises
before the try block (line 87); a failed call is re-raised wrapped (line
214); a successful call always parses (the parser is total). -/
def analyze_with_deepseek (client_initialized : Bool) (api_call : Except String String)
    (text : String) (analysis_time : ℚ) : Except String AnalysisResult :=
  if !client_initialized then
    Except.error "DeepSeek API client not initialized. Please set DEEPSEEK_API_KEY environment variable."
  else
    match api_call with
    | Except.error e => Except.error ("DeepSeek analysis failed: " ++ e)
    | Except.ok analysis_text =>
      Except.ok (parse_analysis_response analysis_text text analysis_time)

/-- Outcome of the `/api/check` endpoint: a result payload, the 400
validation response of src/main.py lines 123-126, or the 500 response of
lines 152-155. -/
inductive ApiResponse where
  | ok (result : AnalysisResult)
  | badRequest (status : Nat) (detail : String)
  | serverError (status : Nat) (detail : String)
deriving DecidableEq

/-- `check_phishing` (src/main.py lines 1112-1155): strip the request
text, reject empties with a 400 before anything else, otherwise run the
analysis on the stripped text and convert an exception to a 500. -/
def check_phishing (client_initialized : Bool) (api_call : Except String String)
    (input_text : String) (analysis_time : ℚ) : ApiResponse :=
  let text := pyStrip input_text
  if text = "" then ApiResponse.badRequest 400 "Text cannot be empty"
  else
    match analyze_with_deepseek client_initialized api_call text analysis_time with
    | Except.ok r => ApiResponse.ok r
    | Except.error e => ApiResponse.serverError 500 ("Prediction failed: " ++ e)

/-- Shape `\w+(-\w+)?` of a captured verdict token: a nonempty word,
optionally followed by a hyphen and a nonempty word, with nothing after. -/
def verdictShapeL (l : List Char) : Bool :=
  !(l.takeWhile isWordChar).isEmpty &&
    (match l.drop (l.takeWhile isWordChar).length with
     | [] => true
     | '-' :: r2 => !r2.isEmpty && r2.all isWordChar
     | _ => false)

/-- Shape `\w+(-\w+)?` on strings. -/
def verdictShape (s : String) : Bool :=
  verdictShapeL s.data

/-- Body character set as worded by the spec for the URL grammar (claim
C5): alphanumerics and the literal set `$-_@.&+!*(),` only. -/
def specUrlBodyChar (c : Char) : Bool :=
  c.isAlpha || c.isDigit
    || c == '$' || c == '-' || c == '_' || c == '@' || c == '.' || c == '&' || c == '+'
    || c == '!' || c == '*' || c == '(' || c == ')' || c == ','

/-- ASCII hexadecimal digit, for percent-encoded octets `%XX`. -/
def isHexDigitChar (c : Char) : Bool :=
  c.isDigit || ('a' ≤ c && c ≤ 'f') || ('A' ≤ c && c ≤ 'F')

/-- Greedy URL body under the grammar worded by the spec for claim C5:
one or more repetitions of an allowed single character or a
percent-encoded octet.  Fuel only serves termination. -/
def specUrlBody : Nat → List Char → List Char
  | 0, _ => []
  | _ + 1, [] => []
  | fuel + 1, c :: rest =>
    if specUrlBodyChar c then c :: specUrlBody fuel rest
    else if c = '%' then
      match rest with
      | h1 :: h2 :: rest2 =>
        if isHexDigitChar h1 && isHexDigitChar h2 then c :: h1 :: h2 :: specUrlBody fuel rest2
        else []
      | _ => []
    else []

/-- Leftmost, non-overlapping scan for the URL grammar worded by the spec
for claim C5 (same scan discipline as `scanUrlsAux`, but with the body
character set the spec states). -/
def specScanUrls : Nat → List Char → List (List Char)
  | 0, _ => []
  | _ + 1, [] => []
  | fuel + 1, c :: rest =>
    let s := c :: rest
    if "https://".data.isPrefixOf s then
      let body := specUrlBody fuel (s.drop 8)
      if body.isEmpty then specScanUrls fuel rest
      else ("https://".data ++ body) :: specScanUrls fuel (s.drop (8 + body.length))
    else if "http://".data.isPrefixOf s then
      let body := specUrlBody fuel (s.drop 7)
      if body.isEmpty then specScanUrls fuel rest
      else ("http://".data ++ body) :: specScanUrls fuel (s.drop (7 + body.length))
    else specScanUrls fuel rest

/-- URL extractor following the spec wording for claim C5: body characters
restricted to alphanumerics, the literal set `$-_@.&+!*(),`, and
percent-encoded octets.  To be compared with `extract_urls`, which embeds
the source regex where `[$-_@.&+]` contains a character range. -/
def extract_urls_spec_grammar (text : String) : List String :=
  (specScanUrls text.data.length text.data).map String.mk

/-- A remaining text that begins a new header-looking line: a newline
followed by one of the four metadata sub-field headers.  Used by the rule
worded in the spec for claim C9. -/
def headerLookingLine (r : List Char) : Bool :=
  match r with
  | '\n' :: rest =>
    startsWithCI "Input Type:".data rest || startsWithCI "Suspicious Elements:".data rest
      || startsWithCI "URLs Found:".data rest || startsWithCI "Senders/Domains:".data rest
  | _ => false

/-- Senders/Domains extraction as worded by the spec for claim C9: the
value is captured up to the next header-looking line or end of text (so a
multi-line value is captured in full), then the none/split/trim/drop rule
is applied.  To be compared with the source, whose pattern stops at the
first newline. -/
def senders_by_header_rule (metadata_text : String) : Option (List String) :=
  (searchCap "Senders/Domains:".data true headerLookingLine metadata_text.data).map fun cap =>
    if pyLower (pyStrip (String.mk cap)) = "none" then []
    else splitCommaClean (pyStrip (String.mk cap))

/-- All insertions of an element into a list, at every position. -/
def insertEverywhere (a : String) : List String → List (List String)
  | [] => [[a]]
  | x :: xs => (a :: x :: xs) :: (insertEverywhere a xs).map (x :: ·)

/-- All permutations of a list (structurally recursive, so it evaluates
inside the kernel). -/
def allPerms : List String → List (List String)
  | [] => [[]]
  | x :: xs => (allPerms xs).flatMap (insertEverywhere x)

/-- Canonical well-formed metadata sub-field lines used for the order
tolerance claim C6. -/
def metadataLines : List String :=
  ["Input Type: Email", "Suspicious Elements: 2", "URLs Found: http://a", "Senders/Domains: d.com"]

/-- A reply consisting of a `METADATA:` header followed by the given
sub-field lines. -/
def mkMetadataReply (lines : List String) : String :=
  "METADATA:\n" ++ String.intercalate "\n" lines

lemma all_takeWhile_self (p : Char → Bool) (l : List Char) :
    ((l.takeWhile p).all p) = true := by
  induction l with
  | nil => rfl
  | cons c r ih =>
    by_cases h : p c
    · simp [List.takeWhile_cons, h, ih]
    · simp [List.takeWhile_cons, h]

lemma takeWhile_eq_self_of_all (p : Char → Bool) (l : List Char) (h : l.all p = true) :
    l.takeWhile p = l := by
  induction l with
  | nil => rfl
  | cons c r ih =>
    simp only [List.all_cons, Bool.and_eq_true] at h
    simp [List.takeWhile_cons, h.1, ih h.2]

lemma takeWhile_append_cons (p : Char → Bool) (w : List Char) (y : Char) (r : List Char)
    (hw : w.all p = true) (hy : p y = false) :
    ((w ++ y :: r).takeWhile p) = w := by
  induction w with
  | nil => simp [List.takeWhile_cons, hy]
  | cons c u ih =>
    simp only [List.all_cons, Bool.and_eq_true] at hw
    simp [List.takeWhile_cons, hw.1, ih hw.2]

lemma word_not_space (c : Char) (h : isWordChar c = true) : isSpaceChar c = false := by
  cases hx : isSpaceChar c
  · rfl
  · simp only [isSpaceChar, Bool.or_eq_true, beq_iff_eq] at hx
    rcases hx with ((((h1 | h1) | h1) | h1) | h1) | h1 <;> subst h1 <;> exact absurd h (by decide)

lemma all_not_space_of_all_word (w : List Char) (hw : w.all isWordChar = true) :
    (w.all fun c => !isSpaceChar c) = true := by
  induction w with
  | nil => rfl
  | cons c u ih =>
    simp only [List.all_cons, Bool.and_eq_true] at hw ⊢
    exact ⟨by simp [word_not_space c hw.1], ih hw.2⟩

lemma verdictShapeL_of_word (w : List Char) (hne : w.isEmpty = false)
    (hall : w.all isWordChar = true) : verdictShapeL w = true := by
  unfold verdictShapeL
  rw [takeWhile_eq_self_of_all _ w hall]
  simp [hne, List.drop_length]

lemma verdictShapeL_of_hyphen (w1 w2 : List Char) (h1 : w1.isEmpty = false)
    (ha1 : w1.all isWordChar = true) (h2 : w2.isEmpty = false)
    (ha2 : w2.all isWordChar = true) :
    verdictShapeL (w1 ++ '-' :: w2) = true := by
  unfold verdictShapeL
  rw [takeWhile_append_cons _ w1 '-' w2 ha1 (by decide)]
  rw [List.drop_left]
  simp [h1, h2, ha2]

lemma verdictToken_props (t w : List Char) (h : verdictToken t = some w) :
    verdictShapeL w = true ∧ (w.all fun c => !isSpaceChar c) = true := by
  have hall : (t.takeWhile isWordChar).all isWordChar = true := all_takeWhile_self _ t
  unfold verdictToken at h
  split at h
  · simp at h
  · rename_i hE
    have hE2 : (t.takeWhile isWordChar).isEmpty = false := by
      cases hx : (t.takeWhile isWordChar).isEmpty
      · rfl
      · exact absurd hx hE
    split at h
    · split at h
      · split at h
        · obtain rfl := Option.some.inj h
          exact ⟨verdictShapeL_of_word _ hE2 hall, all_not_space_of_all_word _ hall⟩
        · rename_i u hdrop hc hw2
          have hw2e : (u.takeWhile isWordChar).isEmpty = false := by
            cases hx : (u.takeWhile isWordChar).isEmpty
            · rfl
            · exact absurd hx hw2
          obtain rfl := Option.some.inj h
          refine ⟨verdictShapeL_of_hyphen _ _ hE2 hall hw2e (all_takeWhile_self _ u), ?_⟩
          simp only [List.all_append, List.all_cons, Bool.and_eq_true]
          exact ⟨all_not_space_of_all_word _ hall, by decide,
            all_not_space_of_all_word _ (all_takeWhile_self _ u)⟩
      · obtain rfl := Option.some.inj h
        exact ⟨verdictShapeL_of_word _ hE2 hall, all_not_space_of_all_word _ hall⟩
    · obtain rfl := Option.some.inj h
      exact ⟨verdictShapeL_of_word _ hE2 hall, all_not_space_of_all_word _ hall⟩

lemma searchToken_verdict_props (hdr : List Char) (s w : List Char)
    (h : searchToken hdr verdictToken s = some w) :
    verdictShapeL w = true ∧ (w.all fun c => !isSpaceChar c) = true := by
  induction s with
  | nil => simp [searchToken] at h
  | cons c rest ih =>
    rw [searchToken] at h
    by_cases hci : startsWithCI hdr (c :: rest)
    · rw [if_pos hci] at h
      cases htok : verdictToken (((c :: rest).drop hdr.length).dropWhile isSpaceChar) with
      | some v =>
        rw [htok] at h
        obtain rfl : v = w := Option.some.inj h
        exact verdictToken_props _ _ htok
      | none => rw [htok] at h; exact ih h
    · rw [if_neg hci] at h; exact ih h

lemma isPrefixOf_append_self (l t : List Char) : l.isPrefixOf (l ++ t) = true := by
  induction l with
  | nil => cases t <;> rfl
  | cons c r ih => simp [List.cons_append, List.isPrefixOf, ih]

lemma httpSchemeSearch_of_hit (s : List Char)
    (h : ("http://".data.isPrefixOf s || "https://".data.isPrefixOf s) = true) :
    httpSchemeSearch s = true := by
  cases s with
  | nil => simp only [Bool.or_eq_true] at h; rcases h with h | h <;> exact absurd h (by decide)
  | cons c rest =>
    simp only [Bool.or_eq_true] at h
    rcases h with h | h <;> simp [httpSchemeSearch, h]

lemma httpSchemeSearch_mono (a s : List Char) (h : httpSchemeSearch s = true) :
    httpSchemeSearch (a ++ s) = true := by
  induction a with
  | nil => simpa using h
  | cons c u ih => simp [httpSchemeSearch, ih]

/-- Claim C1, counterexample: a reply whose `URLs Found:` value is `None`
does not collapse `urls_found` to the empty sequence; the seeded default
extracted from the original text (which contains a URL) survives. -/
theorem C1_counterexample :
    (parse_analysis_response "METADATA:\nURLs Found: None" "Visit http://trap.example now"
        0).metadata.urls_found = ["http://trap.example"]
    ∧ (["http://trap.example"] : List String) ≠ [] := by
  exact ⟨by decide, by decide⟩

/-- Claim C1, amended: when the captured `URLs Found:` value strips and
lowercases to `none`, the parser performs no overwrite, so `urls_found`
keeps the seeded default `extract_urls text` (rather than becoming
empty). -/
theorem C1_amended :
    ∀ (reply text : String) (t : ℚ) (mt cap : String),
      metadata_match reply = some mt → urls_match mt = some cap →
      pyLower (pyStrip cap) = "none" →
      (parse_analysis_response reply text t).metadata.urls_found = extract_urls text := by
  intro reply text t mt cap h1 h2 h3
  simp only [parse_analysis_response, h1]
  simp only [apply_metadata, h2]
  rw [if_neg (by simp [h3])]
  simp [seeded_metadata]

/-- Claim C1, witness for the amended theorem at a concrete reply. -/
theorem C1_witness :
    (parse_analysis_response "METADATA:\nURLs Found: None" "Visit http://trap.example now"
        0).metadata.urls_found = extract_urls "Visit http://trap.example now" :=
  C1_amended "METADATA:\nURLs Found: None" "Visit http://trap.example now" 0
    "URLs Found: None" "None" (by decide) (by decide) (by decide)

/-- Claim C2, counterexample: the parser performs no clamping, so a reply
containing `CONFIDENCE: 250` yields confidence 250, outside [0,100]. -/
theorem C2_counterexample :
    (parse_analysis_response "CONFIDENCE: 250" "hello" 0).confidence = 250
    ∧ ¬((parse_analysis_response "CONFIDENCE: 250" "hello" 0).confidence ≤ 100) := by
  exact ⟨by decide, by decide⟩

/-- Claim C2, amended: confidence is a nonnegative integer that defaults
to 50 and otherwise equals the captured digits unclamped; in particular
`CONFIDENCE: 250` yields 250. -/
theorem C2_amended :
    (∀ (reply text : String) (t : ℚ),
        (confidence_match reply = none → (parse_analysis_response reply text t).confidence = 50)
        ∧ ∀ n, confidence_match reply = some n →
            (parse_analysis_response reply text t).confidence = n)
    ∧ (parse_analysis_response "CONFIDENCE: 250%" "x" 0).confidence = 250 := by
  constructor
  · intro reply text t
    constructor
    · intro h; simp [parse_analysis_response, h]
    · intro n h; simp [parse_analysis_response, h]
  · decide

/-- Claim C2, witness for the amended theorem at a concrete reply. -/
theorem C2_witness : (parse_analysis_response "CONFIDENCE: 7" "y" 0).confidence = 7 :=
  (C2_amended.1 "CONFIDENCE: 7" "y" 0).2 7 (by decide)

/-- Claim C7 (confirmed): the analysis fails (with an error and no
result) exactly when the client is unavailable or the remote call errors;
once a reply is obtained the operation always produces a result. -/
theorem C7_transport_failure :
    ∀ (client_initialized : Bool) (api_call : Except String String) (text : String) (t : ℚ),
      (∃ msg, analyze_with_deepseek client_initialized api_call text t = Except.error msg)
        ↔ (client_initialized = false ∨ ∃ e, api_call = Except.error e) := by
  intro ci call text t
  cases ci <;> cases call <;> simp [analyze_with_deepseek]

/-- Claim C7, witness: a missing client makes the analysis fail. -/
theorem C7_witness :
    ∃ msg, analyze_with_deepseek false (Except.ok "VERDICT: Safe") "hello" 0
      = Except.error msg :=
  (C7_transport_failure false (Except.ok "VERDICT: Safe") "hello" 0).mpr (Or.inl rfl)

/-- Claim C8 (confirmed): a request whose text strips to empty is
rejected with the 400 validation response, and the outcome is independent
of the remote call and the client, i.e. no remote interaction can affect
it and no result is built. -/
theorem C8_empty_input_rejected :
    ∀ (input_text : String) (ci ci2 : Bool) (call call2 : Except String String) (t t2 : ℚ),
      pyStrip input_text = "" →
      check_phishing ci call input_text t = ApiResponse.badRequest 400 "Text cannot be empty"
      ∧ check_phishing ci call input_text t = check_phishing ci2 call2 input_text t2 := by
  intro input_text ci ci2 call call2 t t2 h
  constructor <;> simp [check_phishing, h]

/-- Claim C8, witness at a whitespace-only request. -/
theorem C8_witness :
    check_phishing true (Except.ok "reply") "  \n " 0
        = ApiResponse.badRequest 400 "Text cannot be empty"
    ∧ check_phishing true (Except.ok "reply") "  \n " 0
        = check_phishing false (Except.error "down") "  \n " 1 :=
  C8_empty_input_rejected "  \n " true false (Except.ok "reply") (Except.error "down") 0 1
    (by decide)

/-- Claim C9, counterexample: the Senders/Domains value is cut at the
first newline, while the rule worded by the spec (capture up to the next
header-looking line or end, multi-line values in full) would keep both
lines; the two disagree on a value spanning two lines. -/
theorem C9_counterexample :
    (parse_analysis_response "METADATA:\nSenders/Domains: a.com,\n2b.com" ""
        0).metadata.senders_domains = ["a.com"]
    ∧ senders_by_header_rule "Senders/Domains: a.com,\n2b.com" = some ["a.com", "2b.com"]
    ∧ (["a.com"] : List String) ≠ ["a.com", "2b.com"] := by
  exact ⟨by decide, by decide, by decide⟩

/-- Claim C9, amended: Senders/Domains shares the none/split/trim/drop
rule with URLs Found, but its value is captured only up to the first
newline or end of text (pattern lookahead `(?=\n|$)`), not up to the next
header-looking line, so a multi-line value is truncated. -/
theorem C9_amended :
    (∀ (reply text : String) (t : ℚ) (mt cap : String),
        metadata_match reply = some mt → senders_match mt = some cap →
        (pyLower (pyStrip cap) = "none" →
            (parse_analysis_response reply text t).metadata.senders_domains = [])
        ∧ (pyLower (pyStrip cap) ≠ "none" →
            (parse_analysis_response reply text t).metadata.senders_domains
              = splitCommaClean (pyStrip cap)))
    ∧ (parse_analysis_response "METADATA:\nSenders/Domains: a.com,\n2b.com" ""
        0).metadata.senders_domains = ["a.com"] := by
  constructor
  · intro reply text t mt cap h1 h2
    constructor
    · intro h3
      simp only [parse_analysis_response, h1]
      simp only [apply_metadata, h2]
      rw [if_neg (by simp [h3])]
      simp [seeded_metadata]
    · intro h3
      simp only [parse_analysis_response, h1]
      simp only [apply_metadata, h2]
      rw [if_pos h3]
  · decide

/-- Claim C9, witness for the amended theorem at a concrete reply. -/
theorem C9_witness :
    (parse_analysis_response "METADATA:\nSenders/Domains: a.com,\n2b.com" ""
        0).metadata.senders_domains = splitCommaClean (pyStrip "a.com,") :=
  (C9_amended.1 "METADATA:\nSenders/Domains: a.com,\n2b.com" "" 0
      "Senders/Domains: a.com,\n2b.com" "a.com," (by decide) (by decide)).2 (by decide)

/-- Claim C3, counterexample: the URL check of `detect_input_type` is
case-sensitive (the `re.search` call has no flags), so a text containing
only `HTTP://` in upper case is not classified as `URL/Link`. -/
theorem C3_counterexample :
    detect_input_type "HTTP://EXAMPLE.COM" ≠ "URL/Link"
    ∧ detect_input_type "HTTP://EXAMPLE.COM" = "Text/Message" := by
  exact ⟨by decide, by decide⟩

/-- Claim C3, amended: for text containing the lowercase literal
`http://` or `https://` anywhere, the classifier returns `URL/Link`, and
this check precedes the email-marker check, so text containing both
`http://` and `dear` classifies as `URL/Link`; upper-case variants such
as `HTTP://` are not detected. -/
theorem C3_amended :
    (∀ text : String,
        ((∃ a b, text.data = a ++ ("http://".data ++ b))
          ∨ (∃ a b, text.data = a ++ ("https://".data ++ b))) →
        detect_input_type text = "URL/Link")
    ∧ detect_input_type "dear friend, see http://phish.example/login" = "URL/Link" := by
  constructor
  · intro text h
    have hs : httpSchemeSearch text.data = true := by
      rcases h with ⟨a, b, hab⟩ | ⟨a, b, hab⟩ <;> rw [hab] <;>
        exact httpSchemeSearch_mono _ _
          (httpSchemeSearch_of_hit _ (by simp [isPrefixOf_append_self]))
    simp [detect_input_type, hs]
  · decide

/-- Claim C3, witness for the amended theorem at a concrete text. -/
theorem C3_witness : detect_input_type "http://a" = "URL/Link" :=
  C3_amended.1 "http://a" (Or.inl ⟨[], "a".data, by decide⟩)

/-- Claim C4 (confirmed): the parser is a total function (it returns a
fully-populated, well-typed record by construction for every reply), and
every field whose search fails in the reply keeps its seeded default:
verdict `Safe`, confidence 50, explanation `Analysis completed`, the
original text as highlighted content, the locally classified input type,
zero suspicious elements, the locally extracted URLs, the empty
senders/domains list; the analysis time is always the locally measured
value. -/
theorem C4_default_completeness :
    ∀ (reply text : String) (t : ℚ),
      (verdict_match reply = none → (parse_analysis_response reply text t).verdict = "Safe")
      ∧ (confidence_match reply = none → (parse_analysis_response reply text t).confidence = 50)
      ∧ (explanation_match reply = none →
          (parse_analysis_response reply text t).explanation = "Analysis completed")
      ∧ (highlighted_match reply = none →
          (parse_analysis_response reply text t).highlighted_content = text)
      ∧ (metadata_match reply = none →
          (parse_analysis_response reply text t).metadata = seeded_metadata text t)
      ∧ (∀ mt, metadata_match reply = some mt →
          (input_type_match mt = none →
            (parse_analysis_response reply text t).metadata.input_type = detect_input_type text)
          ∧ (susp_elem_match mt = none →
            (parse_analysis_response reply text t).metadata.suspicious_elements = 0)
          ∧ (urls_match mt = none →
            (parse_analysis_response reply text t).metadata.urls_found = extract_urls text)
          ∧ (senders_match mt = none →
            (parse_analysis_response reply text t).metadata.senders_domains = []))
      ∧ (parse_analysis_response reply text t).metadata.analysis_time = t := by
  intro reply text t
  refine ⟨?_, ?_, ?_, ?_, ?_, ?_, ?_⟩
  · intro h; simp [parse_analysis_response, h]
  · intro h; simp [parse_analysis_response, h]
  · intro h; simp [parse_analysis_response, h]
  · intro h; simp [parse_analysis_response, h]
  · intro h; simp [parse_analysis_response, h]
  · intro mt hmt
    refine ⟨?_, ?_, ?_, ?_⟩ <;> intro h <;>
      simp [parse_analysis_response, hmt, apply_metadata, h, seeded_metadata]
  · cases hm : metadata_match reply <;>
      simp [parse_analysis_response, hm, apply_metadata, seeded_metadata]

/-- Claim C4, witness: the empty reply leaves every field at its seeded
default. -/
theorem C4_witness :
    (parse_analysis_response "" "See http://w.x" 1).verdict = "Safe"
    ∧ (parse_analysis_response "" "See http://w.x" 1).confidence = 50
    ∧ (parse_analysis_response "" "See http://w.x" 1).explanation = "Analysis completed"
    ∧ (parse_analysis_response "" "See http://w.x" 1).highlighted_content = "See http://w.x"
    ∧ (parse_analysis_response "" "See http://w.x" 1).metadata
        = seeded_metadata "See http://w.x" 1
    ∧ (parse_analysis_response "" "See http://w.x" 1).metadata.analysis_time = 1 :=
  ⟨(C4_default_completeness "" "See http://w.x" 1).1 (by decide),
    (C4_default_completeness "" "See http://w.x" 1).2.1 (by decide),
    (C4_default_completeness "" "See http://w.x" 1).2.2.1 (by decide),
    (C4_default_completeness "" "See http://w.x" 1).2.2.2.1 (by decide),
    (C4_default_completeness "" "See http://w.x" 1).2.2.2.2.1 (by decide),
    (C4_default_completeness "" "See http://w.x" 1).2.2.2.2.2.2⟩

/-- Claim C10 (confirmed): the verdict of any parsed result is either the
seeded default `Safe` or a captured token of shape `\w+(-\w+)?`, hence
never contains whitespace; the multi-word value `VERDICT: Very
Suspicious` yields only its first word. -/
theorem C10_verdict_shape :
    (∀ (reply text : String) (t : ℚ),
        ((parse_analysis_response reply text t).verdict = "Safe"
          ∨ verdictShape (parse_analysis_response reply text t).verdict = true)
        ∧ ((parse_analysis_response reply text t).verdict.data.all
            fun c => !isSpaceChar c) = true)
    ∧ (parse_analysis_response "VERDICT: Very Suspicious" "x" 0).verdict = "Very" := by
  constructor
  · intro reply text t
    have hv : (parse_analysis_response reply text t).verdict
        = (verdict_match reply).getD "Safe" := rfl
    unfold verdict_match at hv
    cases hst : searchToken "VERDICT:".data verdictToken reply.data with
    | none =>
      rw [hst] at hv
      simp only [Option.map_none', Option.getD_none] at hv
      rw [hv]
      exact ⟨Or.inl rfl, by decide⟩
    | some w =>
      rw [hst] at hv
      simp only [Option.map_some', Option.getD_some] at hv
      obtain ⟨hsh, hns⟩ := searchToken_verdict_props _ _ _ hst
      rw [hv]
      exact ⟨Or.inr hsh, hns⟩
  · decide

/-- Claim C5, counterexample: the character class `[$-_@.&+]` of the
source regex is a range from `$` to `_`, so the extractor accepts body
characters (here `/`) outside the literal set the claim states; on the
same input the extractor restricted to the stated grammar stops at the
slash. -/
theorem C5_counterexample :
    extract_urls "Go to http://a/b" = ["http://a/b"]
    ∧ extract_urls_spec_grammar "Go to http://a/b" = ["http://a"]
    ∧ (["http://a/b"] : List String) ≠ ["http://a"] := by
  exact ⟨by decide, by decide, by decide⟩

/-- Claim C5, amended: the concrete extraction facts hold (the stated
input yields exactly its one URL, empty input yields the empty sequence),
but the accepted body characters are the alphanumerics, `!`, and every
ASCII character in the range from `$` (0x24) to `_` (0x5F) — including
`/`, `?` and `=` — because `[$-_@.&+]` is a range, not the literal set
`$-_@.&+!*(),`. -/
theorem C5_amended :
    extract_urls "Visit http://example.com/a?b=1 now" = ["http://example.com/a?b=1"]
    ∧ extract_urls "" = []
    ∧ extract_urls "x http://a/b?c=d e" = ["http://a/b?c=d"] := by
  exact ⟨by decide, by decide, by decide⟩

/-- Claim C6, counterexample: order tolerance fails for every upstream
reply: when the Input Type value itself embeds the text
`Suspicious Elements: 9`, the first match for the Suspicious Elements
field depends on which line comes first, so the two orders of the same
two sub-field lines parse differently. -/
theorem C6_counterexample :
    (parse_analysis_response "METADATA:\nInput Type: Suspicious Elements: 9\nSuspicious Elements: 2"
        "x" 0).metadata.suspicious_elements = 9
    ∧ (parse_analysis_response "METADATA:\nSuspicious Elements: 2\nInput Type: Suspicious Elements: 9"
        "x" 0).metadata.suspicious_elements = 2
    ∧ parse_analysis_response "METADATA:\nInput Type: Suspicious Elements: 9\nSuspicious Elements: 2"
        "x" 0
      ≠ parse_analysis_response "METADATA:\nSuspicious Elements: 2\nInput Type: Suspicious Elements: 9"
        "x" 0 := by
  exact ⟨by decide, by decide, by decide⟩

set_option maxHeartbeats 4000000 in
/-- Claim C6, amended: for the canonical metadata block whose four
sub-field lines are `Input Type: Email`, `Suspicious Elements: 2`,
`URLs Found: http://a` and `Senders/Domains: d.com`, all 24 orderings of
the sub-field lines yield identical parsed results; only the first match
per field is honored (a duplicated Suspicious Elements header keeps the
first value), and a missing header leaves the seeded default untouched.
Order tolerance does not extend to arbitrary replies: each sub-field is
located by an independent case-insensitive first-match search, so a value
embedding text that matches another sub-field search - in any letter
case, here the lowercase `suspicious elements: 9` - makes the parse
depend on the line order (the field reads 9 in one order and 2 in the
other). -/
theorem C6_amended :
    (∀ p ∈ allPerms metadataLines,
        parse_analysis_response (mkMetadataReply p) "hi" 0
          = parse_analysis_response (mkMetadataReply metadataLines) "hi" 0)
    ∧ (parse_analysis_response "METADATA:\nSuspicious Elements: 3\nSuspicious Elements: 7" "hi"
        0).metadata.suspicious_elements = 3
    ∧ (parse_analysis_response "METADATA:\nInput Type: Email" "see http://x.y"
        0).metadata.urls_found = ["http://x.y"]
    ∧ (parse_analysis_response
        "METADATA:\nInput Type: suspicious elements: 9\nSuspicious Elements: 2" "x"
        0).metadata.suspicious_elements = 9
    ∧ (parse_analysis_response
        "METADATA:\nSuspicious Elements: 2\nInput Type: suspicious elements: 9" "x"
        0).metadata.suspicious_elements = 2 := by
  refine ⟨by decide, by decide, by decide, by decide, by decide⟩

/-- Claim C6, witness: a concrete permutation of the canonical sub-field
lines parses identically to the canonical order. -/
theorem C6_witness :
    parse_analysis_response
        (mkMetadataReply
          ["Senders/Domains: d.com", "URLs Found: http://a", "Suspicious Elements: 2",
            "Input Type: Email"]) "hi" 0
      = parse_analysis_response (mkMetadataReply metadataLines) "hi" 0 :=
  C6_amended.1
    ["Senders/Domains: d.com", "URLs Found: http://a", "Suspicious Elements: 2",
      "Input Type: Email"] (by decide)
